import Mathlib

/-!
Verification of the playbase leaderboard functions.

This development shallowly embeds the two Netlify functions of the
repository (the score-submission handler and the season-reset handler,
plus the small debug-key handler) and proves properties of the embedded
definitions.  JavaScript numbers that the code only ever uses as integers
(millisecond reaction times, millisecond timestamps, season indices) are
modelled as `Int`; JSON documents are modelled as structures with exactly
the fields the code reads or writes.  `Array.prototype.sort` with the
comparator `(a, b) => a.ms - b.ms` is a stable ascending sort by `ms`
(guaranteed stable by the ECMAScript specification), which we model with
the stable `List.insertionSort` on the relation `a.ms ≤ b.ms`.
-/

namespace Playbase

open scoped List

/-- A score entry as built by the submission handler:
`{ ms, timestamp, id, playerName, playerId, season }`.
The ISO-8601 `timestamp` string is modelled by the underlying
millisecond clock value it renders. -/
structure ScoreEntry where
  ms : Int
  timestampMs : Int
  id : String
  playerName : String
  playerId : String
  season : Int
deriving DecidableEq, Repr

/-- The comparator `(a, b) => a.ms - b.ms` used by the submission handler,
as the ordering relation it induces. -/
def msLE (a b : ScoreEntry) : Prop := a.ms ≤ b.ms

instance : DecidableRel msLE := fun a b => inferInstanceAs (Decidable (a.ms ≤ b.ms))

instance : IsTotal ScoreEntry msLE := ⟨fun a b => Int.le_total a.ms b.ms⟩

instance : IsTrans ScoreEntry msLE := ⟨fun _ _ _ h1 h2 => le_trans h1 h2⟩

/-- The stable ascending sort `.sort((a, b) => a.ms - b.ms)`. -/
def sortByMs (l : List ScoreEntry) : List ScoreEntry := List.insertionSort msLE l

/-- The leaderboard bound: `.slice(0, 10)` keeps only the top 10. -/
def capacity : Nat := 10

/-- `updatedTop = [...currentTop, newScore].sort((a, b) => a.ms - b.ms).slice(0, 10)`
from the submission handler. -/
def updatedTop (currentTop : List ScoreEntry) (newScore : ScoreEntry) : List ScoreEntry :=
  (sortByMs (currentTop ++ [newScore])).take capacity

/-- `isNewRecord = ms <= (currentTop[0]?.ms || Infinity)` from the submission
handler.  An empty leaderboard gives `undefined || Infinity = Infinity`, and a
head value of `0` is falsy in JavaScript, so it too falls back to `Infinity`. -/
def isNewRecord (currentTop : List ScoreEntry) (ms : Int) : Bool :=
  match currentTop with
  | [] => true
  | h :: _ => if h.ms = 0 then true else decide (ms ≤ h.ms)

/-- `updatedTop.findIndex(score => score.id === id)` — JavaScript `findIndex`
returns the 0-based index of the first match, or `-1` when there is none. -/
def findIndexById (i : String) : List ScoreEntry → Int
  | [] => -1
  | h :: t =>
    if h.id = i then 0
    else
      let r := findIndexById i t
      if r = -1 then -1 else r + 1

/-- `position = findIndex(...) + 1` followed by `position || null` in the
response body: a `position` of `0` (entry not found in the truncated list)
is falsy and becomes `null`. -/
def rankOf (updated : List ScoreEntry) (i : String) : Option Int :=
  let position := findIndexById i updated + 1
  if position = 0 then none else some position

/-! ### Sorting lemmas

The filter characterisation of stability: sorting preserves the relative
order of entries holding any one fixed `ms` value. -/

theorem mem_sortByMs {l : List ScoreEntry} {x : ScoreEntry} :
    x ∈ sortByMs l ↔ x ∈ l := by
  unfold sortByMs
  exact (List.perm_insertionSort msLE l).mem_iff

theorem sortByMs_filter_ms (l : List ScoreEntry) (v : Int) :
    (sortByMs l).filter (fun x => decide (x.ms = v)) =
      l.filter (fun x => decide (x.ms = v)) := by
  set P : ScoreEntry → Bool := fun x => decide (x.ms = v) with hP
  have hall : ∀ x ∈ l.filter P, x.ms = v := by
    intro x hx
    have := (List.mem_filter.mp hx).2
    simpa [hP] using this
  have hpair : (l.filter P).Pairwise msLE := by
    refine List.pairwise_iff_forall_sublist.mpr ?_
    intro a b hab
    have ha := hall a (hab.subset (by simp))
    have hb := hall b (hab.subset (by simp))
    show a.ms ≤ b.ms
    omega
  have hsub : l.filter P <+ sortByMs l := by
    unfold sortByMs
    exact List.sublist_insertionSort hpair (List.filter_sublist l)
  have hsub2 : l.filter P <+ (sortByMs l).filter P := by
    have := hsub.filter P
    rwa [List.filter_filter, show (fun a => P a && P a) = P from by
      funext a; cases P a <;> simp] at this
  have hperm : (sortByMs l).filter P ~ l.filter P := by
    unfold sortByMs
    exact (List.perm_insertionSort msLE l).filter P
  exact (hsub2.eq_of_length hperm.length_eq.symm).symm

theorem sortByMs_sorted (l : List ScoreEntry) : (sortByMs l).Sorted msLE :=
  List.sorted_insertionSort msLE l

theorem sortByMs_perm (l : List ScoreEntry) : sortByMs l ~ l :=
  List.perm_insertionSort msLE l

/-- The length bound of the truncated merge result. -/
theorem updatedTop_length_le (cur : List ScoreEntry) (e : ScoreEntry) :
    (updatedTop cur e).length ≤ capacity := by
  unfold updatedTop
  simp [List.length_take_le]

theorem updatedTop_sorted (cur : List ScoreEntry) (e : ScoreEntry) :
    (updatedTop cur e).Sorted msLE :=
  (sortByMs_sorted (cur ++ [e])).sublist (List.take_sublist capacity _)

theorem updatedTop_dropped_largest (cur : List ScoreEntry) (e : ScoreEntry) :
    ∀ k ∈ updatedTop cur e,
      ∀ d ∈ (sortByMs (cur ++ [e])).drop capacity, k.ms ≤ d.ms := by
  intro k hk d hd
  have hfull : (sortByMs (cur ++ [e])).Sorted msLE := sortByMs_sorted (cur ++ [e])
  have hsplit :
      ((sortByMs (cur ++ [e])).take capacity ++
        (sortByMs (cur ++ [e])).drop capacity).Pairwise msLE := by
    rw [List.take_append_drop]
    exact hfull
  have := (List.pairwise_append.mp hsplit).2.2
  exact this k hk d hd

theorem updatedTop_perm (cur : List ScoreEntry) (e : ScoreEntry) :
    (updatedTop cur e ++ (sortByMs (cur ++ [e])).drop capacity) ~ cur ++ [e] := by
  unfold updatedTop
  rw [List.take_append_drop]
  exact sortByMs_perm (cur ++ [e])

/-- Claim C1: the merge appends the new entry, sorts ascending by `value`
(`ms`) with ties broken by insertion order (stability, stated through the
filter characterisation: the entries holding any fixed value keep their
original relative order), and truncates to `capacity = 10`; the result never
exceeds `capacity` entries, nothing is lost besides the truncated suffix
(the permutation conjunct), and every dropped entry has a value at least as
large as every kept entry. -/
theorem merge_top_spec (cur : List ScoreEntry) (e : ScoreEntry) :
    updatedTop cur e = (sortByMs (cur ++ [e])).take capacity
    ∧ (updatedTop cur e).length ≤ capacity
    ∧ (updatedTop cur e).Sorted msLE
    ∧ (∀ v : Int, (sortByMs (cur ++ [e])).filter (fun x => decide (x.ms = v)) =
        (cur ++ [e]).filter (fun x => decide (x.ms = v)))
    ∧ (updatedTop cur e ++ (sortByMs (cur ++ [e])).drop capacity) ~ cur ++ [e]
    ∧ (∀ k ∈ updatedTop cur e,
        ∀ d ∈ (sortByMs (cur ++ [e])).drop capacity, k.ms ≤ d.ms) :=
  ⟨rfl, updatedTop_length_le cur e, updatedTop_sorted cur e,
    sortByMs_filter_ms (cur ++ [e]), updatedTop_perm cur e,
    updatedTop_dropped_largest cur e⟩

/-! ### C3: `isNewRecord` -/

/-- Claim C3: under the leaderboard document invariants (entries sorted
ascending by value, values inside the validated 80–1000 domain, so in
particular nonzero and the JavaScript `|| Infinity` falsy fallback is
inert), `isNewRecord` is true iff the new value is less than or equal to
every value present before insertion (the best value is the smallest);
it is true on an empty leaderboard, and false whenever the current best
(head) value is strictly smaller than the new value. -/
theorem isNewRecord_spec (cur : List ScoreEntry) (v : Int)
    (hs : cur.Sorted msLE) (hv : ∀ x ∈ cur, 80 ≤ x.ms) :
    (isNewRecord cur v = true ↔ ∀ x ∈ cur, v ≤ x.ms)
    ∧ (cur = [] → isNewRecord cur v = true)
    ∧ (∀ h₀, cur.head? = some h₀ → h₀.ms < v → isNewRecord cur v = false) := by
  refine ⟨?_, ?_, ?_⟩
  · cases cur with
    | nil => simp [isNewRecord]
    | cons h t =>
      have h80 : 80 ≤ h.ms := hv h (by simp)
      have hne : ¬ h.ms = 0 := by omega
      have hrest : ∀ x ∈ t, h.ms ≤ x.ms := by
        intro x hx
        exact (List.pairwise_cons.mp hs).1 x hx
      constructor
      · intro hrec x hx
        simp only [isNewRecord, if_neg hne, decide_eq_true_eq] at hrec
        rcases List.mem_cons.mp hx with rfl | hx'
        · exact hrec
        · exact le_trans hrec (hrest x hx')
      · intro hall
        simp only [isNewRecord, if_neg hne, decide_eq_true_eq]
        exact hall h (by simp)
  · intro hnil
    subst hnil
    simp [isNewRecord]
  · intro h₀ hh hlt
    cases cur with
    | nil => simp at hh
    | cons h t =>
      have h80 : 80 ≤ h.ms := hv h (by simp)
      have hne : ¬ h.ms = 0 := by omega
      simp only [List.head?_cons, Option.some.injEq] at hh
      subst hh
      simp only [isNewRecord, if_neg hne, decide_eq_false_iff_not]
      omega

/-- A concrete witness instantiation for `isNewRecord_spec`. -/
def entry142 : ScoreEntry :=
  { ms := 142, timestampMs := 1737000000000, id := "a1b2c3d4"
    playerName := "Anonymous", playerId := "unknown", season := 1 }

/-- A second concrete entry, slower than `entry142`, with a distinct id. -/
def entry200 : ScoreEntry :=
  { ms := 200, timestampMs := 1737000005000, id := "e5f6a7b8"
    playerName := "Anonymous", playerId := "unknown", season := 1 }

theorem isNewRecord_spec_witness :
    isNewRecord [entry142] 200 = false :=
  ((isNewRecord_spec [entry142] 200 (by simp [List.Sorted])
      (by intro x hx; simp at hx; subst hx; decide)).2.2
    entry142 (by rfl) (by decide))

/-! ### C4: `rank` / `position` -/

theorem findIndexById_eq_neg_one (i : String) (l : List ScoreEntry)
    (h : ∀ x ∈ l, x.id ≠ i) : findIndexById i l = -1 := by
  induction l with
  | nil => rfl
  | cons a t ih =>
    have ha : a.id ≠ i := h a (by simp)
    have ht := ih (fun x hx => h x (by simp [hx]))
    simp [findIndexById, ha, ht]

theorem findIndexById_eq_indexOf (e : ScoreEntry) (l : List ScoreEntry)
    (hmem : e ∈ l) (huniq : ∀ x ∈ l, x.id = e.id → x = e) :
    findIndexById e.id l = (l.indexOf e : Int) ∧ 0 ≤ findIndexById e.id l := by
  induction l with
  | nil => simp at hmem
  | cons a t ih =>
    by_cases ha : a.id = e.id
    · have hae : a = e := huniq a (by simp) ha
      subst hae
      simp [findIndexById, List.indexOf_cons_self]
    · have hane : a ≠ e := fun h => ha (h ▸ rfl)
      have hmem' : e ∈ t := by
        rcases List.mem_cons.mp hmem with rfl | h
        · exact absurd rfl hane
        · exact h
      obtain ⟨ih1, ih2⟩ := ih hmem' (fun x hx hid => huniq x (by simp [hx]) hid)
      have hne : findIndexById e.id t ≠ -1 := by omega
      constructor
      · simp only [findIndexById, if_neg ha, if_neg hne, ih1]
        rw [List.indexOf_cons_ne _ (by simpa using hane)]
        push_cast
        ring
      · simp only [findIndexById, if_neg ha, if_neg hne]
        omega

theorem mem_updatedTop_mem_append {cur : List ScoreEntry} {e x : ScoreEntry}
    (hx : x ∈ updatedTop cur e) : x ∈ cur ++ [e] := by
  have h1 : x ∈ sortByMs (cur ++ [e]) :=
    (List.take_sublist capacity _).subset hx
  exact mem_sortByMs.mp h1

/-- Claim C4: assuming the freshly generated id does not collide with any id
already on the leaderboard, the reported rank is the 1-based position of the
new entry in the truncated result, or `null` (`none`) when the entry was
truncated away; and the two worked examples: value 142 into an empty
leaderboard gives entries `[142]`, rank 1 and a new record, then value 200
gives entries `[142, 200]`, rank 2 and no new record. -/
theorem rank_position_spec :
    (∀ (cur : List ScoreEntry) (e : ScoreEntry), (∀ x ∈ cur, x.id ≠ e.id) →
      rankOf (updatedTop cur e) e.id =
        if e ∈ updatedTop cur e
        then some (((updatedTop cur e).indexOf e : Int) + 1) else none)
    ∧ updatedTop [] entry142 = [entry142]
    ∧ rankOf (updatedTop [] entry142) entry142.id = some 1
    ∧ isNewRecord [] entry142.ms = true
    ∧ updatedTop [entry142] entry200 = [entry142, entry200]
    ∧ rankOf (updatedTop [entry142] entry200) entry200.id = some 2
    ∧ isNewRecord [entry142] entry200.ms = false := by
  refine ⟨?_, by decide, by decide, by decide, by decide, by decide, by decide⟩
  intro cur e hfresh
  by_cases hmem : e ∈ updatedTop cur e
  · have huniq : ∀ x ∈ updatedTop cur e, x.id = e.id → x = e := by
      intro x hx hid
      rcases List.mem_append.mp (mem_updatedTop_mem_append hx) with h | h
      · exact absurd hid (hfresh x h)
      · simpa using h
    obtain ⟨h1, h2⟩ := findIndexById_eq_indexOf e _ hmem huniq
    rw [if_pos hmem]
    unfold rankOf
    rw [h1]
    have : ¬ (((updatedTop cur e).indexOf e : Int) + 1 = 0) := by
      have : (0 : Int) ≤ ((updatedTop cur e).indexOf e : Int) := by positivity
      omega
    rw [if_neg this]
  · have hnone : ∀ x ∈ updatedTop cur e, x.id ≠ e.id := by
      intro x hx hid
      rcases List.mem_append.mp (mem_updatedTop_mem_append hx) with h | h
      · exact hfresh x h hid
      · simp only [List.mem_singleton] at h
        exact hmem (h ▸ hx)
    rw [if_neg hmem]
    unfold rankOf
    rw [findIndexById_eq_neg_one _ _ hnone]
    simp

/-- Witness for the quantified conjunct of `rank_position_spec`. -/
theorem rank_position_spec_witness :
    rankOf (updatedTop [entry142] entry200) entry200.id =
      if entry200 ∈ updatedTop [entry142] entry200
      then some (((updatedTop [entry142] entry200).indexOf entry200 : Int) + 1)
      else none :=
  rank_position_spec.1 [entry142] entry200 (by intro x hx; simp at hx; subst hx; decide)

/-! ### C5: the season computation -/

/-- The fixed epoch `new Date('2025-01-15T00:00:00Z')` in milliseconds since
the Unix epoch. -/
def seasonEpochMs : Int := 1736899200000

/-- `1000 * 60 * 60 * 24` — milliseconds per day. -/
def msPerDay : Int := 1000 * 60 * 60 * 24

/-- `daysSinceStart = Math.floor((currentDate - seasonStart) / (1000*60*60*24))`
from the season-reset handler. -/
def daysSinceStartReset (nowMs : Int) : Int := (nowMs - seasonEpochMs).fdiv msPerDay

/-- `currentSeason = Math.floor(daysSinceStart / 90) + 1` from the
season-reset handler (90 days per season). -/
def currentSeasonReset (nowMs : Int) : Int := (daysSinceStartReset nowMs).fdiv 90 + 1

/-- The identical computation transcribed from the submission handler. -/
def daysSinceStartSubmit (nowMs : Int) : Int := (nowMs - seasonEpochMs).fdiv msPerDay

/-- The identical season computation transcribed from the submission handler. -/
def currentSeasonSubmit (nowMs : Int) : Int := (daysSinceStartSubmit nowMs).fdiv 90 + 1

/-- The 90-day period length in milliseconds. -/
def periodLengthMs : Int := 90 * msPerDay

/-- The season number exactly as the spec words it (the refinement
reference): `currentSeason = floor((now - epoch) / periodLength) + 1`. -/
def currentSeasonSpecFormula (nowMs : Int) : Int :=
  (nowMs - seasonEpochMs).fdiv periodLengthMs + 1

theorem fdiv_fdiv_of_nonneg {t a b : Int} (ht : 0 ≤ t) (ha : 0 ≤ a) (hb : 0 ≤ b) :
    (t.fdiv a).fdiv b = t.fdiv (a * b) := by
  obtain ⟨m, rfl⟩ := Int.eq_ofNat_of_zero_le ht
  obtain ⟨A, rfl⟩ := Int.eq_ofNat_of_zero_le ha
  obtain ⟨B, rfl⟩ := Int.eq_ofNat_of_zero_le hb
  rw [← Int.ofNat_fdiv, ← Int.ofNat_fdiv, ← Int.ofNat_mul, ← Int.ofNat_fdiv,
    Nat.div_div_eq_div_mul]

/-- Claim C5: for every instant at or after the epoch, the season number the
code computes (whole days since the epoch, floor-divided by 90, plus 1)
equals the spec formula `floor((now - epoch) / periodLength) + 1` with a
90-day period, and the submission handler and the season-reset handler
compute the same value. -/
theorem season_formula_agree (nowMs : Int) (h : seasonEpochMs ≤ nowMs) :
    currentSeasonReset nowMs = currentSeasonSpecFormula nowMs
    ∧ currentSeasonSubmit nowMs = currentSeasonReset nowMs := by
  refine ⟨?_, rfl⟩
  unfold currentSeasonReset daysSinceStartReset currentSeasonSpecFormula periodLengthMs
  rw [fdiv_fdiv_of_nonneg (by omega : (0:Int) ≤ nowMs - seasonEpochMs)
    (by decide : (0:Int) ≤ msPerDay) (by decide : (0:Int) ≤ 90)]
  rw [Int.mul_comm]

/-- Witness for `season_formula_agree` at 2025-04-15T00:00:00Z. -/
theorem season_formula_agree_witness :
    currentSeasonReset 1744675200000 = currentSeasonSpecFormula 1744675200000
    ∧ currentSeasonSubmit 1744675200000 = currentSeasonReset 1744675200000 :=
  season_formula_agree 1744675200000 (by decide)

/-! ### The document store and the handler pipelines

The backing store is the GitHub contents API, an external collaborator.
Its write semantics are modelled from the spec's store contract (§3, §4.1,
§4.3) and the documented behaviour of `PUT /repos/{owner}/{repo}/contents`:
a write carrying a version token (blob `sha`) succeeds only if the token
still matches the stored document (stale tokens are rejected — optimistic
concurrency), and a write carrying no token succeeds only if the path does
not exist yet (creating over an existing path is rejected), which is what
makes the archive write idempotent-by-path. -/

/-- The network side effects a handler can perform, in order. -/
inductive Effect where
  | tokenExchange
  | storeRead (path : String)
  | storeWrite (path : String)
deriving DecidableEq, Repr

/-- The cause attached to a handler failure (the `details` payload of a
500 response; the `error` field itself is a single generic string). -/
inductive FailureDetail where
  | missingCredentials
  | authFailed
  | fetchFailed (path : String)
  | updateConflict (path : String)
  | createOnExisting (path : String)
deriving DecidableEq, Repr

/-- `reaction/latest.json` contents: either the raw score entry the
submission handler stores, or the `{latest: null, last_updated, season}`
document the season reset stores. -/
inductive LatestFile where
  | score (e : ScoreEntry)
  | resetMarker (season : Int)
deriving DecidableEq, Repr

/-- `reaction/top.json` contents.  The submission handler writes only
`top` and `last_updated`; the season reset also writes `season` and
`season_start`. -/
structure TopFile where
  top : List ScoreEntry
  lastUpdatedMs : Option Int
  season : Option Int
  seasonStartMs : Option Int
deriving DecidableEq, Repr

/-- `reaction/archive/season-N.json` contents. -/
structure ArchiveDoc where
  season : Int
  seasonEndMs : Int
  topScores : List ScoreEntry
  totalPlayers : Nat
deriving DecidableEq, Repr

/-- The documents the functions touch, each with its current version token
(blob `sha`, modelled as a counter).  `none` means the path does not exist.
Archive paths are keyed by season number and are only ever created. -/
structure Store where
  latest : Option (LatestFile × Nat)
  top : Option (TopFile × Nat)
  archives : List (Int × ArchiveDoc)
deriving DecidableEq, Repr

def latestPath : String := "reaction/latest.json"

def topPath : String := "reaction/top.json"

def archivePath (season : Int) : String :=
  "reaction/archive/season-" ++ toString season ++ ".json"

/-! #### The score-submission handler -/

/-- The outcome of a submission request, carrying exactly what the JSON
response body distinguishes. -/
inductive SubmitOutcome where
  | methodNotAllowed
  | validationError
  | serverError (details : FailureDetail)
  | success (score : ScoreEntry) (isNewRecord : Bool) (position : Option Int)
deriving DecidableEq, Repr

/-- The HTTP status code of each submission outcome. -/
def submitStatus : SubmitOutcome → Nat
  | .methodNotAllowed => 405
  | .validationError => 400
  | .serverError _ => 500
  | .success _ _ _ => 200

/-- The `error` field of the submission response body. -/
def submitErrorField : SubmitOutcome → Option String
  | .methodNotAllowed => some "Method not allowed"
  | .validationError => some "Invalid reaction time. Must be between 80-1000ms."
  | .serverError _ => some "Failed to save score"
  | .success _ _ _ => none

/-- The inputs of one submission invocation.  `msBody` is the parsed `ms`
field (`none` models a missing or non-number value); `freshId` is the
random 8-character id `Math.random().toString(16).substr(2, 8)`; `authOk`
models the token-exchange network call succeeding. -/
structure SubmitParams where
  httpMethod : String
  msBody : Option Int
  playerName : Option String
  playerId : Option String
  nowMs : Int
  freshId : String
  authOk : Bool
deriving DecidableEq, Repr

/-- The result of one submission invocation: the response outcome, the
network effects performed in order, and the final store. -/
structure SubmitRun where
  outcome : SubmitOutcome
  effects : List Effect
  store : Store
deriving DecidableEq, Repr

/-- The `newScore` object the submission handler builds. -/
def mkNewScore (p : SubmitParams) (v : Int) : ScoreEntry :=
  { ms := v
    timestampMs := p.nowMs
    id := p.freshId
    playerName := p.playerName.getD "Anonymous"
    playerId := p.playerId.getD "unknown"
    season := currentSeasonSubmit p.nowMs }

/-- The effects of the token exchange followed by the `Promise.all` pair of
document reads. -/
def readPhaseEffects : List Effect :=
  [.tokenExchange, .storeRead latestPath, .storeRead topPath]

/-- The write phase of the submission handler: update `latest.json` with the
version token taken from the read, then update `top.json` with its token.
`lf`/`lsha` and `tf`/`tsha` are the contents and tokens the read phase
observed in `sRead`; the writes are applied to `sWrite`, which differs from
`sRead` exactly when a concurrent writer committed in between. -/
def submitWrites (p : SubmitParams) (v : Int) (tf : TopFile)
    (lsha tsha : Nat) (sWrite : Store) : SubmitRun :=
  let ns := mkNewScore p v
  if sWrite.latest.map Prod.snd = some lsha then
    let s1 : Store := { sWrite with latest := some (.score ns, lsha + 1) }
    if s1.top.map Prod.snd = some tsha then
      let updated := updatedTop tf.top ns
      let s2 : Store := { s1 with
        top := some ({ top := updated, lastUpdatedMs := some p.nowMs,
                       season := none, seasonStartMs := none }, tsha + 1) }
      ⟨.success ns (isNewRecord tf.top v) (rankOf updated p.freshId),
        readPhaseEffects ++ [.storeWrite latestPath, .storeWrite topPath], s2⟩
    else
      ⟨.serverError (.updateConflict topPath),
        readPhaseEffects ++ [.storeWrite latestPath, .storeWrite topPath], s1⟩
  else
    ⟨.serverError (.updateConflict latestPath),
      readPhaseEffects ++ [.storeWrite latestPath], sWrite⟩

/-- The authenticated part of the submission handler: token exchange, the
two reads from `sRead`, then the write phase against `sWrite`. -/
def submitAuthed (p : SubmitParams) (v : Int) (sRead sWrite : Store) : SubmitRun :=
  if p.authOk then
    match sRead.latest, sRead.top with
    | some (_, lsha), some (tf, tsha) => submitWrites p v tf lsha tsha sWrite
    | none, _ => ⟨.serverError (.fetchFailed latestPath), readPhaseEffects, sWrite⟩
    | some _, none => ⟨.serverError (.fetchFailed topPath), readPhaseEffects, sWrite⟩
  else ⟨.serverError .authFailed, [.tokenExchange], sWrite⟩

/-- One full invocation of the score-submission handler, transcribed from
the source: method check, then
`if (!ms || typeof ms !== 'number' || ms < 80 || ms > 1000)` validation
(a missing or non-number `ms` is `none`; `!ms` also catches a zero value),
then authentication, reads, and the two conditional writes. -/
def submitRun (p : SubmitParams) (sRead sWrite : Store) : SubmitRun :=
  if p.httpMethod = "POST" then
    match p.msBody with
    | none => ⟨.validationError, [], sWrite⟩
    | some v =>
      if v = 0 ∨ v < 80 ∨ 1000 < v then ⟨.validationError, [], sWrite⟩
      else submitAuthed p v sRead sWrite
  else ⟨.methodNotAllowed, [], sWrite⟩

/-! #### The season-reset handler -/

/-- The outcome of a season-reset request. -/
inductive RotateOutcome where
  | methodNotAllowed
  | serverError (details : FailureDetail)
  | success (archivedSeason : Int) (newSeason : Int)
deriving DecidableEq, Repr

/-- The HTTP status code of each season-reset outcome. -/
def rotateStatus : RotateOutcome → Nat
  | .methodNotAllowed => 405
  | .serverError _ => 500
  | .success _ _ => 200

/-- The `error` field of the season-reset response body. -/
def rotateErrorField : RotateOutcome → Option String
  | .methodNotAllowed => some "Method not allowed"
  | .serverError _ => some "Failed to reset season"
  | .success _ _ => none

/-- The inputs of one season-reset invocation.  `credsOk` models the three
GitHub App environment variables being present; `topReadFails` models the
`octokit.repos.getContent` call for `reaction/top.json` failing (network or
any error) — the handler catches and only logs that failure. -/
structure RotateParams where
  httpMethod : String
  credsOk : Bool
  topReadFails : Bool
  nowMs : Int
deriving DecidableEq, Repr

/-- The result of one season-reset invocation. -/
structure RotateRun where
  outcome : RotateOutcome
  effects : List Effect
  store : Store
deriving DecidableEq, Repr

/-- The archive document the handler builds: season and `season_end` from
the wall clock, entries and player count from the `top.json` read — or left
empty when that read failed (the failure is caught and only logged). -/
def archiveBuilt (p : RotateParams) (s : Store) : ArchiveDoc :=
  let readEntries : List ScoreEntry :=
    if p.topReadFails then []
    else
      match s.top with
      | some (tf, _) => tf.top
      | none => []
  { season := currentSeasonReset p.nowMs
    seasonEndMs := p.nowMs
    topScores := readEntries
    totalPlayers := readEntries.length }

/-- The effects up to and including the archive write. -/
def rotateArchiveEffects (season : Int) : List Effect :=
  [.tokenExchange, .storeRead topPath, .storeWrite (archivePath season)]

/-- The `newTopScores` document the season reset writes: an empty list,
the advanced season, and `season_start = seasonStart + currentSeason * 90
days`. -/
def rotateNewTopFile (p : RotateParams) (season : Int) : TopFile :=
  { top := []
    lastUpdatedMs := some p.nowMs
    season := some (season + 1)
    seasonStartMs := some (seasonEpochMs + season * 90 * msPerDay) }

/-- The two reset writes after a successful archive creation.  Both are
`createOrUpdateFileContents` calls carrying no `sha`, so each succeeds only
if its path does not exist yet. -/
def rotateResets (p : RotateParams) (season : Int) (s1 : Store) : RotateRun :=
  if s1.top.isSome then
    ⟨.serverError (.createOnExisting topPath),
      rotateArchiveEffects season ++ [.storeWrite topPath], s1⟩
  else if s1.latest.isSome then
    ⟨.serverError (.createOnExisting latestPath),
      rotateArchiveEffects season ++ [.storeWrite topPath, .storeWrite latestPath],
      { s1 with top := some (rotateNewTopFile p season, 0) }⟩
  else
    ⟨.success season (season + 1),
      rotateArchiveEffects season ++ [.storeWrite topPath, .storeWrite latestPath],
      { s1 with top := some (rotateNewTopFile p season, 0)
                latest := some (.resetMarker (season + 1), 0) }⟩

/-- The authenticated core of the season-reset handler: compute the season
from the wall clock, read the current top scores inside a try/catch whose
failure is swallowed, create the archive (no `sha` — fails if the path for
that season already exists), then reset `top.json` and `latest.json`. -/
def rotateCore (p : RotateParams) (s : Store) : RotateRun :=
  if (s.archives.lookup (currentSeasonReset p.nowMs)).isSome then
    ⟨.serverError (.createOnExisting (archivePath (currentSeasonReset p.nowMs))),
      rotateArchiveEffects (currentSeasonReset p.nowMs), s⟩
  else
    rotateResets p (currentSeasonReset p.nowMs)
      { s with archives :=
          (currentSeasonReset p.nowMs, archiveBuilt p s) :: s.archives }

/-- One full invocation of the season-reset handler. -/
def rotateRun (p : RotateParams) (s : Store) : RotateRun :=
  if p.httpMethod = "POST" then
    if p.credsOk then rotateCore p s
    else ⟨.serverError .missingCredentials, [], s⟩
  else ⟨.methodNotAllowed, [], s⟩

/-! #### The debug-key handler -/

/-- The outcome of a debug-key request. -/
inductive DebugKeyOutcome where
  | methodNotAllowed
  | keyFormatError
  | success
deriving DecidableEq, Repr

/-- One invocation of the debug-key handler: it only ever signs a JWT
locally — it performs no token exchange and no store access.
`signOkDirect` models `jwt.sign` succeeding on the raw key and
`signOkReplaced` models it succeeding after newline replacement. -/
def debugKeyRun (httpMethod : String) (signOkDirect signOkReplaced : Bool) :
    DebugKeyOutcome × List Effect :=
  if httpMethod = "POST" then
    if signOkDirect then (.success, [])
    else if signOkReplaced then (.success, [])
    else (.keyFormatError, [])
  else (.methodNotAllowed, [])

/-! ### C2: validation happens before any store access -/

/-- Claim C2: a POST submission whose `ms` is missing, not a number, or
outside the inclusive 80–1000 bound is rejected with a 400 client error
before the token exchange and before any store access: the invocation
performs no network effect at all and leaves the store untouched. -/
theorem validation_rejects_before_store (p : SubmitParams) (sRead sWrite : Store)
    (hm : p.httpMethod = "POST")
    (hbad : p.msBody = none ∨ ∃ v, p.msBody = some v ∧ (v < 80 ∨ 1000 < v)) :
    (submitRun p sRead sWrite).outcome = .validationError
    ∧ submitStatus (submitRun p sRead sWrite).outcome = 400
    ∧ (submitRun p sRead sWrite).effects = []
    ∧ (submitRun p sRead sWrite).store = sWrite := by
  unfold submitRun
  rw [if_pos hm]
  rcases hbad with hb | ⟨v, hb, hv⟩
  · rw [hb]
    exact ⟨rfl, rfl, rfl, rfl⟩
  · rw [hb]
    have hc : v = 0 ∨ v < 80 ∨ 1000 < v := by omega
    simp [if_pos hc, submitStatus]

/-- The store as it stands after some activity: both documents present. -/
def baseTopFile : TopFile :=
  { top := [entry142], lastUpdatedMs := some 1737000000000
    season := none, seasonStartMs := none }

/-- A store holding a latest pointer (at version 0) and a one-entry
leaderboard (at version 0). -/
def storeBase : Store :=
  { latest := some (.score entry142, 0), top := some (baseTopFile, 0), archives := [] }

/-- A submission of value 50 (below the 80 bound). -/
def submitParams50 : SubmitParams :=
  { httpMethod := "POST", msBody := some 50, playerName := none, playerId := none
    nowMs := 1744675200000, freshId := "cafe1234", authOk := true }

theorem validation_rejects_before_store_witness :
    (submitRun submitParams50 storeBase storeBase).outcome = .validationError
    ∧ submitStatus (submitRun submitParams50 storeBase storeBase).outcome = 400
    ∧ (submitRun submitParams50 storeBase storeBase).effects = []
    ∧ (submitRun submitParams50 storeBase storeBase).store = storeBase :=
  validation_rejects_before_store submitParams50 storeBase storeBase rfl
    (Or.inr ⟨50, rfl, by omega⟩)

/-! ### C10: non-POST requests -/

/-- Claim C10: every request whose method is not POST is answered with 405
Method Not Allowed by each of the three handlers (score submission, season
reset, debug key), with no store read, no store write and no token
exchange, and with the store left untouched. -/
theorem non_post_rejected (m : String) (hm : ¬ m = "POST")
    (p : SubmitParams) (hp : p.httpMethod = m)
    (rp : RotateParams) (hr : rp.httpMethod = m)
    (sRead sWrite s : Store) (b1 b2 : Bool) :
    submitRun p sRead sWrite = ⟨.methodNotAllowed, [], sWrite⟩
    ∧ submitStatus .methodNotAllowed = 405
    ∧ rotateRun rp s = ⟨.methodNotAllowed, [], s⟩
    ∧ rotateStatus .methodNotAllowed = 405
    ∧ debugKeyRun m b1 b2 = (.methodNotAllowed, []) := by
  refine ⟨?_, rfl, ?_, rfl, ?_⟩
  · unfold submitRun
    rw [hp, if_neg hm]
  · unfold rotateRun
    rw [hr, if_neg hm]
  · unfold debugKeyRun
    rw [if_neg hm]

theorem non_post_rejected_witness :
    submitRun { submitParams50 with httpMethod := "GET" } storeBase storeBase
        = ⟨.methodNotAllowed, [], storeBase⟩
    ∧ submitStatus .methodNotAllowed = 405
    ∧ rotateRun { httpMethod := "GET", credsOk := true, topReadFails := false
                  nowMs := 1744675200000 } storeBase
        = ⟨.methodNotAllowed, [], storeBase⟩
    ∧ rotateStatus .methodNotAllowed = 405
    ∧ debugKeyRun "GET" true true = (.methodNotAllowed, []) :=
  non_post_rejected "GET" (by decide)
    { submitParams50 with httpMethod := "GET" } rfl
    { httpMethod := "GET", credsOk := true, topReadFails := false
      nowMs := 1744675200000 } rfl
    storeBase storeBase storeBase true true

/-! ### C6: the latest pointer write -/

/-- Claim C6 (amended): on every accepted submission the latest pointer is
always written with the new entry, regardless of whether the entry made the
leaderboard — but the write is conditional on the version token (`sha`)
obtained by the read in the same invocation, not unconditional.  Absent
concurrent modification the write succeeds and the pointer then holds
exactly the newly submitted entry; with a stale token the write is rejected
and the pointer is left unchanged. -/
theorem latest_pointer_amended (p : SubmitParams) (v : Int) (sRead sWrite : Store)
    (lf : LatestFile) (lsha : Nat) (tf : TopFile) (tsha : Nat)
    (hm : p.httpMethod = "POST") (hv : p.msBody = some v)
    (hval : ¬(v = 0 ∨ v < 80 ∨ 1000 < v)) (ha : p.authOk = true)
    (hl : sRead.latest = some (lf, lsha)) (ht : sRead.top = some (tf, tsha)) :
    ((sWrite.latest.map Prod.snd = some lsha) →
        (submitRun p sRead sWrite).store.latest
          = some (.score (mkNewScore p v), lsha + 1))
    ∧ ((sWrite.latest.map Prod.snd ≠ some lsha) →
        (submitRun p sRead sWrite).outcome = .serverError (.updateConflict latestPath)
        ∧ (submitRun p sRead sWrite).store = sWrite) := by
  have hrun : submitRun p sRead sWrite = submitWrites p v tf lsha tsha sWrite := by
    unfold submitRun
    rw [if_pos hm, hv]
    simp only [if_neg hval]
    unfold submitAuthed
    rw [ha, hl, ht]
    simp
  constructor
  · intro hsha
    rw [hrun]
    unfold submitWrites
    rw [if_pos hsha]
    by_cases htop : (({ sWrite with
        latest := some (.score (mkNewScore p v), lsha + 1) } : Store).top.map Prod.snd
          = some tsha)
    · simp only [if_pos htop]
    · simp only [if_neg htop]
  · intro hsha
    rw [hrun]
    unfold submitWrites
    rw [if_neg hsha]
    exact ⟨rfl, rfl⟩

/-- A submission of value 190 arriving while a concurrent writer has already
advanced the version of the latest pointer. -/
def submitParamsRace : SubmitParams :=
  { httpMethod := "POST", msBody := some 190, playerName := some "Bob"
    playerId := some "p7", nowMs := 1744675200000, freshId := "feedbead"
    authOk := true }

/-- The store the racing submission observed at read time (latest pointer at
version 0). -/
def storeAtRead : Store := storeBase

/-- The store at write time: a concurrent writer has replaced the latest
pointer, advancing its version token to 1. -/
def storeAtWrite : Store :=
  { latest := some (.score entry200, 1), top := some (baseTopFile, 0), archives := [] }

/-- Claim C6 counterexample: an accepted submission (valid POST, value 190)
whose latest-pointer write carries the now-stale version token is rejected
by the store — the write is conditional, not unconditional — and after the
submission the latest pointer still holds the concurrent writer's entry,
not the most recently submitted one. -/
theorem latest_pointer_cex :
    (submitRun submitParamsRace storeAtRead storeAtWrite).outcome
        = .serverError (.updateConflict latestPath)
    ∧ (submitRun submitParamsRace storeAtRead storeAtWrite).store = storeAtWrite
    ∧ storeAtWrite.latest = some (.score entry200, 1)
    ∧ mkNewScore submitParamsRace 190 ≠ entry200 := by decide

/-- A full leaderboard of ten entries faster than 500ms, to witness that the
latest pointer is written even when the submission misses the top 10. -/
def fastEntry (k : Nat) : ScoreEntry :=
  { ms := 100 + k, timestampMs := 1737000000000, id := "fast" ++ toString k
    playerName := "Anonymous", playerId := "unknown", season := 1 }

/-- A store whose leaderboard is already full with ten faster entries. -/
def storeFullTop : Store :=
  { latest := some (.score entry142, 0)
    top := some ({ top := (List.range 10).map fastEntry, lastUpdatedMs := none
                   season := none, seasonStartMs := none }, 5)
    archives := [] }

/-- A valid submission of value 500, too slow for `storeFullTop`'s top 10. -/
def submitParams500 : SubmitParams :=
  { httpMethod := "POST", msBody := some 500, playerName := none, playerId := none
    nowMs := 1744675200000, freshId := "0badf00d", authOk := true }

theorem latest_pointer_amended_witness :
    (submitRun submitParams500 storeFullTop storeFullTop).store.latest
      = some (.score (mkNewScore submitParams500 500), 1) :=
  (latest_pointer_amended submitParams500 500 storeFullTop storeFullTop
      (.score entry142) 0
      { top := (List.range 10).map fastEntry, lastUpdatedMs := none
        season := none, seasonStartMs := none } 5
      rfl rfl (by decide) rfl rfl rfl).1 (by decide)

/-! ### C7 and C8: rotation, the archive, and idempotency by path -/

theorem rotateResets_archives (p : RotateParams) (season : Int) (s1 : Store) :
    (rotateResets p season s1).store.archives = s1.archives := by
  unfold rotateResets
  by_cases h1 : s1.top.isSome
  · rw [if_pos h1]
  · rw [if_neg h1]
    by_cases h2 : s1.latest.isSome
    · simp only [if_pos h2]
    · simp only [if_neg h2]

theorem rotate_creates_archive (p : RotateParams) (s : Store)
    (hm : p.httpMethod = "POST") (hc : p.credsOk = true)
    (hnone : s.archives.lookup (currentSeasonReset p.nowMs) = none) :
    (rotateRun p s).store.archives
      = (currentSeasonReset p.nowMs, archiveBuilt p s) :: s.archives := by
  have hcore : rotateRun p s = rotateCore p s := by
    unfold rotateRun
    rw [if_pos hm, hc]
    simp
  rw [hcore]
  unfold rotateCore
  rw [hnone]
  simp only [Option.isSome_none, Bool.false_eq_true, if_false]
  exact rotateResets_archives p (currentSeasonReset p.nowMs)
    { s with archives := (currentSeasonReset p.nowMs, archiveBuilt p s) :: s.archives }

theorem rotate_archive_lookup (p : RotateParams) (s : Store)
    (hm : p.httpMethod = "POST") (hc : p.credsOk = true)
    (hnone : s.archives.lookup (currentSeasonReset p.nowMs) = none) :
    (rotateRun p s).store.archives.lookup (currentSeasonReset p.nowMs)
      = some (archiveBuilt p s) := by
  rw [rotate_creates_archive p s hm hc hnone]
  simp [List.lookup]

theorem rotate_on_archived_store (p : RotateParams) (t : Store)
    (hm : p.httpMethod = "POST") (hc : p.credsOk = true)
    (hsome : (t.archives.lookup (currentSeasonReset p.nowMs)).isSome) :
    (rotateRun p t).outcome
        = .serverError (.createOnExisting (archivePath (currentSeasonReset p.nowMs)))
    ∧ (rotateRun p t).store = t := by
  have hcore : rotateRun p t = rotateCore p t := by
    unfold rotateRun
    rw [if_pos hm, hc]
    simp
  rw [hcore]
  unfold rotateCore
  rw [if_pos hsome]
  exact ⟨rfl, rfl⟩

/-- Claim C7: with no archive yet for the current season, a first rotation
creates the season-numbered archive; a second rotation for the same season
number fails — creating over the existing season path is rejected (the
AlreadyArchived condition: the archive write is idempotent-by-path and
fails rather than overwrites) — and it leaves the whole store, in
particular the archive content the first rotation wrote, unchanged. -/
theorem rotate_twice_same_season (p1 p2 : RotateParams) (s : Store)
    (h1 : p1.httpMethod = "POST") (h2 : p2.httpMethod = "POST")
    (hc1 : p1.credsOk = true) (hc2 : p2.credsOk = true)
    (hsame : currentSeasonReset p2.nowMs = currentSeasonReset p1.nowMs)
    (hnone : s.archives.lookup (currentSeasonReset p1.nowMs) = none) :
    (rotateRun p1 s).store.archives.lookup (currentSeasonReset p1.nowMs)
        = some (archiveBuilt p1 s)
    ∧ (rotateRun p2 (rotateRun p1 s).store).outcome
        = .serverError (.createOnExisting (archivePath (currentSeasonReset p1.nowMs)))
    ∧ (rotateRun p2 (rotateRun p1 s).store).store = (rotateRun p1 s).store := by
  have hlook := rotate_archive_lookup p1 s h1 hc1 hnone
  have hsome : ((rotateRun p1 s).store.archives.lookup
      (currentSeasonReset p2.nowMs)).isSome := by
    rw [hsame, hlook]
    rfl
  have h2nd := rotate_on_archived_store p2 (rotateRun p1 s).store h2 hc2 hsome
  exact ⟨hlook, by rw [h2nd.1, hsame], h2nd.2⟩

/-- A rotation request 10 days after the epoch (inside season 1). -/
def rotateParamsDay10 : RotateParams :=
  { httpMethod := "POST", credsOk := true, topReadFails := false
    nowMs := 1737763200000 }

/-- A rotation request 100 days after the epoch (inside season 2). -/
def rotateParamsDay100 : RotateParams :=
  { httpMethod := "POST", credsOk := true, topReadFails := false
    nowMs := 1745539200000 }

/-- A rotation request during which the `top.json` read fails. -/
def rotateParamsReadFail : RotateParams :=
  { httpMethod := "POST", credsOk := true, topReadFails := true
    nowMs := 1737763200000 }

theorem rotate_twice_same_season_witness :
    (rotateRun rotateParamsDay10 storeBase).store.archives.lookup
        (currentSeasonReset rotateParamsDay10.nowMs)
        = some (archiveBuilt rotateParamsDay10 storeBase)
    ∧ (rotateRun rotateParamsDay10 (rotateRun rotateParamsDay10 storeBase).store).outcome
        = .serverError
            (.createOnExisting (archivePath (currentSeasonReset rotateParamsDay10.nowMs)))
    ∧ (rotateRun rotateParamsDay10 (rotateRun rotateParamsDay10 storeBase).store).store
        = (rotateRun rotateParamsDay10 storeBase).store :=
  rotate_twice_same_season rotateParamsDay10 rotateParamsDay10 storeBase
    rfl rfl rfl rfl rfl (by decide)

/-- Claim C8 counterexample: the handler takes no caller-supplied
season-to-close; rotating the very same store at two different instants
labels the archive with two different seasons (1 resp. 2), both freshly
computed from the wall clock at rotation time. -/
theorem archive_season_clock_cex :
    ((rotateRun rotateParamsDay10 storeBase).store.archives.lookup 1).map
        ArchiveDoc.season = some 1
    ∧ ((rotateRun rotateParamsDay100 storeBase).store.archives.lookup 2).map
        ArchiveDoc.season = some 2
    ∧ (rotateRun rotateParamsDay100 storeBase).store.archives.lookup 1 = none
    ∧ currentSeasonReset rotateParamsDay10.nowMs = 1
    ∧ currentSeasonReset rotateParamsDay100.nowMs = 2 := by decide

/-- Claim C8 (amended): during rotation the ArchiveDocument's season field
is the season freshly computed from the wall clock at rotation time — the
handler accepts no explicit season-to-close from the caller — and the
archive is stored under that clock-derived season's path. -/
theorem archive_season_is_clock_season (p : RotateParams) (s : Store)
    (hm : p.httpMethod = "POST") (hc : p.credsOk = true)
    (hnone : s.archives.lookup (currentSeasonReset p.nowMs) = none) :
    (rotateRun p s).store.archives.lookup (currentSeasonReset p.nowMs)
        = some (archiveBuilt p s)
    ∧ (archiveBuilt p s).season = currentSeasonReset p.nowMs
    ∧ (archiveBuilt p s).seasonEndMs = p.nowMs :=
  ⟨rotate_archive_lookup p s hm hc hnone, rfl, rfl⟩

theorem archive_season_is_clock_season_witness :
    (rotateRun rotateParamsDay100 storeBase).store.archives.lookup
        (currentSeasonReset rotateParamsDay100.nowMs)
        = some (archiveBuilt rotateParamsDay100 storeBase)
    ∧ (archiveBuilt rotateParamsDay100 storeBase).season
        = currentSeasonReset rotateParamsDay100.nowMs
    ∧ (archiveBuilt rotateParamsDay100 storeBase).seasonEndMs
        = rotateParamsDay100.nowMs :=
  archive_season_is_clock_season rotateParamsDay100 storeBase rfl rfl (by decide)

/-! ### C9: error reporting -/

/-- The racing submission with authentication failing instead. -/
def submitParamsNoAuth : SubmitParams :=
  { submitParamsRace with authOk := false }

/-- Claim C9 counterexample: the rotation handler silently swallows the
failure of its `top.json` read — a run in which that read fails returns
exactly the same response (outcome and effects) as the run in which it
succeeds, so the immediate caller cannot observe the error at all, while
the two runs write different archives. -/
theorem error_swallowed_cex :
    (rotateRun rotateParamsReadFail storeBase).outcome
        = (rotateRun rotateParamsDay10 storeBase).outcome
    ∧ (rotateRun rotateParamsReadFail storeBase).effects
        = (rotateRun rotateParamsDay10 storeBase).effects
    ∧ (rotateRun rotateParamsReadFail storeBase).store
        ≠ (rotateRun rotateParamsDay10 storeBase).store := by decide

/-- Claim C9 (amended): validation and method errors aside, every
submission or rotation failure is reported as one generic 500 class — the
`error` field is the same fixed string for a version conflict as for an
authentication failure, so the retryable/terminal distinction is not
exposed as a distinguishable result — and the rotation's archive read
failure is swallowed entirely: the failing-read run is indistinguishable
to the caller from the successful-read run though the stores differ. -/
theorem errors_generic_amended :
    submitStatus (submitRun submitParamsRace storeAtRead storeAtWrite).outcome = 500
    ∧ submitStatus (submitRun submitParamsNoAuth storeAtRead storeAtRead).outcome = 500
    ∧ submitErrorField (submitRun submitParamsRace storeAtRead storeAtWrite).outcome
        = some "Failed to save score"
    ∧ submitErrorField (submitRun submitParamsNoAuth storeAtRead storeAtRead).outcome
        = some "Failed to save score"
    ∧ (submitRun submitParamsRace storeAtRead storeAtWrite).outcome
        = .serverError (.updateConflict latestPath)
    ∧ (submitRun submitParamsNoAuth storeAtRead storeAtRead).outcome
        = .serverError .authFailed
    ∧ (rotateRun rotateParamsReadFail storeBase).outcome
        = (rotateRun rotateParamsDay10 storeBase).outcome
    ∧ (rotateRun rotateParamsReadFail storeBase).store
        ≠ (rotateRun rotateParamsDay10 storeBase).store
    ∧ rotateErrorField (rotateRun rotateParamsReadFail storeBase).outcome
        = some "Failed to reset season" := by decide
